import Mathlib

/-!
Verification development for the check_pve2.py monitoring plugin.

The Python source is shallowly embedded: byte counts are natural numbers,
thresholds are integers (argparse `type=int`), fractional quantities are
rationals, and Python's `round(x, n)` (round-half-to-even at `n` decimal
places) is modelled exactly over ℚ.  Each `check_*` function of the source
becomes a pure Lean function from its decoded payload to the produced
finding list, or, for the immediately-terminating subcommands, to the pair
(printed lines, exit code).
-/

/-- Model of Python's whitespace set used by `str.strip()`. -/
def pyIsSpace (c : Char) : Bool :=
  c = ' ' || c = '\t' || c = '\n' || c = '\r' || c = '\x0b' || c = '\x0c'

/-- Model of Python's `str.strip()` (used on the disk vendor field). -/
def pyStrip (s : String) : String :=
  ⟨((s.data.dropWhile pyIsSpace).reverse.dropWhile pyIsSpace).reverse⟩

/-- Substring test on character lists (model of Python's `in` on strings and
of `re.search` with a metacharacter-free pattern). -/
def hasSubstr (p : List Char) : List Char → Bool
  | [] => p.isEmpty
  | c :: rest => p.isPrefixOf (c :: rest) || hasSubstr p rest

/-- `containsSub pat s` models Python's `pat in s` / `re.search(pat, s)`
for the literal patterns used by the plugin. -/
def containsSub (pat s : String) : Bool :=
  hasSubstr pat.data s.data

/-- Round a rational to the nearest integer, ties to even: the rounding mode
of Python's builtin `round`. -/
def roundHalfEven (q : ℚ) : ℤ :=
  let f := ⌊q⌋
  let r := q - f
  if r < 1/2 then f
  else if 1/2 < r then f + 1
  else if f % 2 = 0 then f else f + 1

/-- Model of Python `round(x, 2)`. -/
def round2 (q : ℚ) : ℚ := (roundHalfEven (q * 100) : ℚ) / 100

/-- Model of Python `round(x, 1)`. -/
def round1 (q : ℚ) : ℚ := (roundHalfEven (q * 10) : ℚ) / 10

/-- Decimal rendering of the nonnegative 2-decimal rationals produced by
`round2`/`round1`, matching Python's float `repr` on such values
(`90.0`, `7.45`, `0.07`, ...). -/
def qRepr (q : ℚ) : String :=
  let n := ⌊q * 100⌋
  let ip := n / 100
  let fr := (n % 100).toNat
  if fr = 0 then toString ip ++ ".0"
  else if fr % 10 = 0 then toString ip ++ "." ++ toString (fr / 10)
  else if fr < 10 then toString ip ++ ".0" ++ toString fr
  else toString ip ++ "." ++ toString fr

/-- The `CheckState` enum of the source. -/
inductive CheckState
  | OK
  | WARNING
  | CRITICAL
  | UNKNOWN
deriving DecidableEq

/-- `CheckState.name` (Python `state.name`). -/
def CheckState.name : CheckState → String
  | .OK => "OK"
  | .WARNING => "WARNING"
  | .CRITICAL => "CRITICAL"
  | .UNKNOWN => "UNKNOWN"

/-- `CheckState.value` (Python `state.value`). -/
def CheckState.value : CheckState → Nat
  | .OK => 0
  | .WARNING => 1
  | .CRITICAL => 2
  | .UNKNOWN => 3

/-- `CheckPVE.output`: prints `"<STATE> - <message>"` and exits with the
state's value.  Modelled as the pair (printed lines, exit code). -/
def output (state : CheckState) (message : String) : List String × Nat :=
  ([state.name ++ " - " ++ message], state.value)

/-- `CheckPVE.check_UOM`: unit selection by the decimal digit count of the
byte value (`len(str(mynumber))`), with the sequential reassigning `if`
blocks of the source reproduced literally. -/
def check_UOM (mynumber : ℕ) : ℚ × String :=
  let mynumber_lenght := (toString mynumber).length
  let p0 : ℚ × String := (mynumber, "GB")
  let p1 := if 13 ≤ mynumber_lenght then (round2 (p0.1 / 1024^4), "TB") else p0
  let p2 :=
    if 10 ≤ mynumber_lenght ∧ mynumber_lenght ≤ 12 then
      (round2 (p1.1 / 1024^3), "GB")
    else p1
  let p3 := if mynumber_lenght < 10 then (round2 (p2.1 / 1024^2), "MB") else p2
  p3

/-- `CheckPVE.get_common_unit`: both numbers divided by the divisor selected
from the digit count of the total. -/
def get_common_unit (used_number total_number : ℕ) : ℚ × ℚ × String :=
  let total_number_lenght := (toString total_number).length
  let p0 : ℚ × ℚ × String := (used_number, total_number, "GB")
  let p1 :=
    if 13 ≤ total_number_lenght then
      (round2 (p0.1 / 1024^4), round2 (p0.2.1 / 1024^4), "TB")
    else p0
  let p2 :=
    if 10 ≤ total_number_lenght ∧ total_number_lenght ≤ 12 then
      (round2 (p1.1 / 1024^3), round2 (p1.2.1 / 1024^3), "GB")
    else p1
  let p3 :=
    if total_number_lenght < 10 then
      (round2 (p2.1 / 1024^2), round2 (p2.2.1 / 1024^2), "MB")
    else p2
  p3

/-- `CheckPVE.check_exitcodes`, printing part: each severity group that is
present in the accumulated list is printed (CRITICAL block, then WARNING
block, then `OK -` block). -/
def printedLines (result_list : List String) : List String :=
  (if result_list.any (containsSub "CRITICAL") then
    result_list.filter (containsSub "CRITICAL") else []) ++
  (if result_list.any (containsSub "WARNING") then
    result_list.filter (containsSub "WARNING") else []) ++
  (if result_list.any (containsSub "OK -") then
    result_list.filter (containsSub "OK -") else [])

/-- `CheckPVE.check_exitcodes`, exit part: 2 if any CRITICAL line, else 1 if
any WARNING line, else 0. -/
def exitCode (result_list : List String) : Nat :=
  if result_list.any (containsSub "CRITICAL") then 2
  else if result_list.any (containsSub "WARNING") then 1
  else 0

/-- One record of the `services` payload. -/
structure ServiceRec where
  name : String
  desc : String
  unitState : String
  state : String
  activeState : String

/-- The WARNING line produced for one failing service
(`f"WARNING - {service_desc} ({service_name}) is {service_state}."`). -/
def serviceWarnMsg (e : ServiceRec) : String :=
  "WARNING - " ++ e.desc ++ " (" ++ e.name ++ ") is " ++ e.state ++ "."

/-- The OK baseline line of `check_services`. -/
def servicesOkLine : String := "OK - All services are running."

/-- The per-service WARNING condition of `check_services` (line 397 of the
source): `(state != "running" or active_state != "active") and
unit_state != "not-found"`. -/
def serviceWarns (e : ServiceRec) : Bool :=
  (e.state != "running" || e.activeState != "active") && e.unitState != "not-found"

/-- One iteration of the `check_services` loop, including the in-place
re-filtering of the accumulated list once any WARNING is present. -/
def servicesStep (acc : List String) (e : ServiceRec) : List String :=
  let acc :=
    if serviceWarns e then acc ++ [serviceWarnMsg e]
    else if !(acc.any (containsSub "WARNING")) then acc ++ [servicesOkLine]
    else acc
  if acc.any (containsSub "WARNING") then
    acc.filter (containsSub "WARNING -")
  else acc

/-- `CheckPVE.check_services`: the result list after the loop and the final
`set(...)` deduplication. -/
def check_services (request_output : List ServiceRec) : List String :=
  (request_output.foldl servicesStep []).dedup

/-- One record of the `disks_health` payload.  `wearout = none` models a
non-integer JSON value (such as the string `"N/A"`), for which Python's
`isinstance(disk_wearout, int)` is false. -/
structure DiskRec where
  vendor : String
  model : String
  type : String
  devpath : String
  health : String
  wearout : Option Int

/-- Shared message stem `{vendor.strip()} - {model} type: {type} on {devpath}`. -/
def diskStem (d : DiskRec) : String :=
  pyStrip d.vendor ++ " - " ++ d.model ++ " type: " ++ d.type ++ " on " ++ d.devpath

/-- Failed-health WARNING line of `check_disks_health`. -/
def diskHealthMsg (d : DiskRec) : String :=
  "WARNING - " ++ diskStem d ++ " is failed: " ++ d.health

/-- Low-wearout WARNING line of `check_disks_health`. -/
def diskWearWarnMsg (d : DiskRec) (w : Int) : String :=
  "WARNING - " ++ diskStem d ++ " has low wearout: " ++ toString w

/-- Low-wearout CRITICAL line of `check_disks_health`. -/
def diskWearCritMsg (d : DiskRec) (w : Int) : String :=
  "CRITICAL - " ++ diskStem d ++ " has low wearout: " ++ toString w

/-- The OK baseline line of `check_disks_health`. -/
def disksOkLine : String := "OK - All disks are healthy."

/-- The `else` branch of the per-disk conditional: append the OK baseline
unless the list already holds both a WARNING and a CRITICAL line. -/
def disksOkBranch (acc : List String) : List String :=
  if !(acc.any (containsSub "WARNING")) || !(acc.any (containsSub "CRITICAL")) then
    acc ++ [disksOkLine]
  else acc

/-- One iteration of the `check_disks_health` loop, including the in-place
re-filtering (which keeps only lines containing both `"WARNING -"` and
`"CRITICAL -"`) once any WARNING is present. -/
def disksStep (tw tc : Int) (acc : List String) (d : DiskRec) : List String :=
  let acc :=
    if d.health != "OK" && d.health != "PASSED" && d.health != "UNKNOWN" then
      acc ++ [diskHealthMsg d]
    else
      match d.wearout with
      | some w =>
        if w ≤ tw && w ≥ tc then acc ++ [diskWearWarnMsg d w]
        else if w ≤ tc then acc ++ [diskWearCritMsg d w]
        else disksOkBranch acc
      | none => disksOkBranch acc
  if acc.any (containsSub "WARNING") then
    acc.filter (fun x => containsSub "WARNING -" x && containsSub "CRITICAL -" x)
  else acc

/-- `CheckPVE.check_disks_health`: the result list after the loop and the
final `set(...)` deduplication. -/
def check_disks_health (tw tc : Int) (request_output : List DiskRec) : List String :=
  (request_output.foldl (disksStep tw tc) []).dedup

/-- `CheckPVE.check_cpu` followed by `output`/`check_exitcodes`: the pair
(printed lines, exit code) of a `cpu` run with thresholds `tw`/`tc` and
payload value `cpu`.  The final unreachable fall-through (no branch taken)
returns to `main`, which then aggregates the empty result list. -/
def run_cpu (tw tc : Int) (cpu : ℚ) : List String × Nat :=
  let cpu_usage := round2 (cpu * 100)
  let u := qRepr cpu_usage
  let message :=
    "CPU usage is " ++ u ++ " %. |usage=" ++ u ++ "%;" ++ toString tw ++ ";" ++
      toString tc ++ ";0;100"
  if (tc : ℚ) ≤ cpu_usage then output .CRITICAL message
  else if (tw : ℚ) ≤ cpu_usage ∧ cpu_usage ≤ (tc : ℚ) then output .WARNING message
  else if cpu_usage < (tw : ℚ) then output .OK message
  else ([], 0)

/-- The GB value reported by `check_memory`: `round(bytes/1024**3, 1)`. -/
def memGB (n : ℕ) : ℚ := round1 ((n : ℚ) / 1024^3)

/-- The percentage computed by `check_memory`, on the GB-rounded values,
with the division-by-zero guard testing the GB-rounded total. -/
def memPercent (used total : ℕ) : ℚ :=
  if memGB total = 0 then round2 (memGB used / 1 * 100)
  else round2 (memGB used / memGB total * 100)

/-- `CheckPVE.check_memory` followed by `output`/`check_exitcodes`: the pair
(printed lines, exit code).  `subcommand` is `"memory"` or `"swap"`. -/
def run_memory (tw tc : Int) (subcommand : String) (used total : ℕ) :
    List String × Nat :=
  let memory_used := memGB used
  let memory_total := memGB total
  let memory_used_warning := round2 (memory_total / 100 * tw)
  let memory_used_critical := round2 (memory_total / 100 * tc)
  let memory_used_percent := memPercent used total
  let message :=
    subcommand ++ " usage is " ++ qRepr memory_used_percent ++ " % (" ++
      qRepr memory_used ++ " GB / " ++ qRepr memory_total ++ " GB)!" ++
      "                |usage=" ++ qRepr memory_used ++ "GB;" ++
      qRepr memory_used_warning ++ ";" ++ qRepr memory_used_critical ++ ";0;" ++
      qRepr memory_total
  if (tc : ℚ) ≤ memory_used_percent then output .CRITICAL message
  else if (tw : ℚ) ≤ memory_used_percent ∧ memory_used_percent ≤ (tc : ℚ) then
    output .WARNING message
  else if memory_used_percent < (tw : ℚ) then output .OK message
  else ([], 0)

/-- `CheckPVE.check_swap` just delegates to `check_memory`. -/
def run_swap (tw tc : Int) (used total : ℕ) : List String × Nat :=
  run_memory tw tc "swap" used total

/-- One record of the `storage` payload. -/
structure StorageRec where
  storage : String
  enabled : Int
  active : Int
  type : String
  used : ℕ
  total : ℕ

/-- The findings appended for one storage item that passed the
include/ignore filter (`check_storage_inside` together with the
per-item computations of the loop body). -/
def storageFindings (tw tc : Int) (st : StorageRec) : List String :=
  let storage_used_percent :=
    if st.total = 0 then round2 ((st.used : ℚ) / 1 * 100)
    else round2 ((st.used : ℚ) / (st.total : ℚ) * 100)
  let (storage_used, storage_used_unit) := check_UOM st.used
  let (storage_total, storage_total_unit) := check_UOM st.total
  let (storage_common_used, storage_common_total, storage_common_unit) :=
    get_common_unit st.used st.total
  let storage_used_warning := round2 (storage_total / 100 * tw)
  let storage_used_critical := round2 (storage_total / 100 * tc)
  let message :=
    st.storage ++ " disk usage (type: " ++ st.type ++ ") is " ++
      qRepr storage_used_percent ++ " % (" ++ qRepr storage_used ++ " " ++
      storage_used_unit ++ " / " ++ qRepr storage_total ++ " " ++
      storage_total_unit ++ ")." ++ "                        |" ++
      st.storage ++ "=" ++ qRepr storage_common_used ++ storage_common_unit ++
      ";" ++ qRepr storage_used_warning ++ ";" ++ qRepr storage_used_critical ++
      ";0;" ++ qRepr storage_common_total
  if st.enabled = 1 then
    if st.active ≠ 1 then ["WARNING - " ++ st.storage ++ " disk is not active!"]
    else if (tc : ℚ) ≤ storage_used_percent then ["CRITICAL - " ++ message]
    else if (tw : ℚ) ≤ storage_used_percent ∧ storage_used_percent ≤ (tc : ℚ) then
      ["WARNING - " ++ message]
    else if storage_used_percent < (tw : ℚ) then ["OK - " ++ message]
    else []
  else []

/-- `CheckPVE.check_storage`: the accumulated result list, with the
include/ignore filter of lines 446-452 of the source. -/
def check_storage (tw tc : Int) (include_disks ignore_disks : List String)
    (request_output : List StorageRec) : List String :=
  request_output.foldl
    (fun acc st =>
      if 0 < include_disks.length then
        if include_disks.contains st.storage then acc ++ storageFindings tw tc st
        else acc
      else
        if !(ignore_disks.contains st.storage) then acc ++ storageFindings tw tc st
        else acc)
    []

/-- The subcommand names accepted by the argument parser. -/
inductive Subcommand
  | ceph
  | ceph_io
  | cluster
  | cpu
  | disks_health
  | memory
  | pveversion
  | services
  | storage
  | swap
deriving DecidableEq

/-- `CheckPVE.check_thresholds_scale`: returns a verdict only for the
subcommand/scale combinations the source tests, `none` (Python `None`)
otherwise. -/
def check_thresholds_scale (sub : Subcommand) (tw tc : Int) (scale : String) :
    Option Bool :=
  if (sub = .cpu ∨ sub = .memory ∨ sub = .storage ∨ sub = .swap) ∧
      scale = "increase" then
    some (decide (tw < tc))
  else if sub = .disks_health ∧ scale = "decrease" then
    some (decide (tc < tw))
  else
    none

/-- The threshold-ordering rejection of `parse_args` (lines 143-146 of the
source): `parser.error` fires when either scale check returns `False`
(Python `None == False` is false, so a `none` verdict never fires). -/
def parse_args_rejects (sub : Subcommand) (tw tc : Int) : Bool :=
  if check_thresholds_scale sub tw tc "increase" = some false then true
  else if check_thresholds_scale sub tw tc "decrease" = some false then true
  else false

example : round2 (9/10 * 100) = 90 := by with_unfolding_all rfl
example : round2 (1/8 * 100) = 12 + 1/2 := by with_unfolding_all rfl
example : check_UOM 9 = (0, "MB") := by with_unfolding_all rfl
example : check_UOM 10000000000 = (round2 (10000000000 / 1024^3), "GB") := by with_unfolding_all rfl
example : qRepr (round2 (9/10 * 100)) = "90.0" := by with_unfolding_all rfl
example : qRepr (93/100) = "0.93" := by with_unfolding_all rfl
example : qRepr (745/100) = "7.45" := by with_unfolding_all rfl
example : qRepr (7/100) = "0.07" := by with_unfolding_all rfl
example : containsSub "WARNING" "OK - All services are running." = false := by decide
example : exitCode ["CRITICAL - a", "WARNING - b"] = 2 := by decide
example : printedLines ["CRITICAL - a", "WARNING - b"] = ["CRITICAL - a", "WARNING - b"] := by decide

/-! ## Helper lemmas -/

theorem isPrefixOf_append_of_isPrefixOf {p q : List Char} (r : List Char)
    (h : p.isPrefixOf q = true) : p.isPrefixOf (q ++ r) = true := by
  rw [ List.isPrefixOf_iff_prefix] at h ⊢
  exact h.trans (List.prefix_append q r)

theorem hasSubstr_nil_left (l : List Char) : hasSubstr [] l = true := by
  cases l <;> simp [hasSubstr, List.isPrefixOf, List.isEmpty]

theorem hasSubstr_of_isPrefixOf {p l : List Char} (h : p.isPrefixOf l = true) :
    hasSubstr p l = true := by
  cases l with
  | nil =>
    cases p with
    | nil => exact hasSubstr_nil_left []
    | cons a as => simp [List.isPrefixOf] at h
  | cons c rest => simp [hasSubstr, h]

theorem hasSubstr_append_right {p q : List Char} (r : List Char)
    (h : hasSubstr p q = true) : hasSubstr p (q ++ r) = true := by
  induction q with
  | nil =>
    simp only [hasSubstr, List.isEmpty_iff] at h
    subst h
    exact hasSubstr_nil_left r
  | cons c q ih =>
    simp only [hasSubstr, Bool.or_eq_true] at h ⊢
    rcases h with h | h
    · exact Or.inl (isPrefixOf_append_of_isPrefixOf r h)
    · exact Or.inr (ih h)

theorem containsSub_append_right {pat pre : String} (rest : String)
    (h : containsSub pat pre = true) : containsSub pat (pre ++ rest) = true := by
  simp only [containsSub] at h ⊢
  rw [show (pre ++ rest).data = pre.data ++ rest.data from rfl]
  exact hasSubstr_append_right rest.data h

/-- Every per-service WARNING line contains the patterns used by the
aggregation filters. -/
theorem serviceWarnMsg_contains (pat : String) (h : containsSub pat "WARNING - " = true)
    (e : ServiceRec) : containsSub pat (serviceWarnMsg e) = true := by
  unfold serviceWarnMsg
  exact containsSub_append_right _ (containsSub_append_right _ (containsSub_append_right _
    (containsSub_append_right _ (containsSub_append_right _ (containsSub_append_right _ h)))))

/-- Membership in one of the conditional print blocks of `check_exitcodes`. -/
theorem mem_ifBlock {l : List String} {p : String → Bool} {x : String} :
    (x ∈ if l.any p then l.filter p else []) ↔ x ∈ l ∧ p x = true := by
  by_cases h : l.any p = true
  · rw [if_pos h]
    exact List.mem_filter
  · rw [if_neg h]
    simp only [List.not_mem_nil, false_iff, not_and]
    intro hx hp
    exact h (List.any_eq_true.mpr ⟨x, hx, hp⟩)

theorem check_UOM_mb {n : ℕ} (h : (toString n).length < 10) :
    check_UOM n = (round2 ((n : ℚ) / 1024^2), "MB") := by
  simp only [check_UOM]
  rw [if_neg (by omega : ¬ 13 ≤ (toString n).length),
    if_neg (by omega : ¬ (10 ≤ (toString n).length ∧ (toString n).length ≤ 12)),
    if_pos h]

theorem check_UOM_gb {n : ℕ} (h1 : 10 ≤ (toString n).length)
    (h2 : (toString n).length ≤ 12) :
    check_UOM n = (round2 ((n : ℚ) / 1024^3), "GB") := by
  simp only [check_UOM]
  rw [if_neg (by omega : ¬ (toString n).length < 10),
    if_pos (⟨h1, h2⟩ : 10 ≤ (toString n).length ∧ (toString n).length ≤ 12),
    if_neg (by omega : ¬ 13 ≤ (toString n).length)]

theorem check_UOM_tb {n : ℕ} (h : 13 ≤ (toString n).length) :
    check_UOM n = (round2 ((n : ℚ) / 1024^4), "TB") := by
  simp only [check_UOM]
  rw [if_pos h,
    if_neg (by omega : ¬ (10 ≤ (toString n).length ∧ (toString n).length ≤ 12)),
    if_neg (by omega : ¬ (toString n).length < 10)]

theorem get_common_unit_mb {u t : ℕ} (h : (toString t).length < 10) :
    get_common_unit u t =
      (round2 ((u : ℚ) / 1024^2), round2 ((t : ℚ) / 1024^2), "MB") := by
  simp only [get_common_unit]
  rw [if_neg (by omega : ¬ 13 ≤ (toString t).length),
    if_neg (by omega : ¬ (10 ≤ (toString t).length ∧ (toString t).length ≤ 12)),
    if_pos h]

theorem get_common_unit_gb {u t : ℕ} (h1 : 10 ≤ (toString t).length)
    (h2 : (toString t).length ≤ 12) :
    get_common_unit u t =
      (round2 ((u : ℚ) / 1024^3), round2 ((t : ℚ) / 1024^3), "GB") := by
  simp only [get_common_unit]
  rw [if_neg (by omega : ¬ (toString t).length < 10),
    if_pos (⟨h1, h2⟩ : 10 ≤ (toString t).length ∧ (toString t).length ≤ 12),
    if_neg (by omega : ¬ 13 ≤ (toString t).length)]

theorem get_common_unit_tb {u t : ℕ} (h : 13 ≤ (toString t).length) :
    get_common_unit u t =
      (round2 ((u : ℚ) / 1024^4), round2 ((t : ℚ) / 1024^4), "TB") := by
  simp only [get_common_unit]
  rw [if_pos h,
    if_neg (by omega : ¬ (10 ≤ (toString t).length ∧ (toString t).length ≤ 12)),
    if_neg (by omega : ¬ (toString t).length < 10)]

/-! ## Claim theorems -/

/-- C4: for every non-negative byte count `n`, `check_UOM` chooses the unit
by the decimal digit count of `n`: fewer than 10 digits gives MB with value
`round(n/1024^2, 2)`, 10 to 12 digits gives GB with `round(n/1024^3, 2)`,
13 or more digits gives TB with `round(n/1024^4, 2)`. -/
theorem claim_C4_check_UOM_digit_unit (n : ℕ) :
    ((toString n).length < 10 →
      check_UOM n = (round2 ((n : ℚ) / 1024^2), "MB")) ∧
    (10 ≤ (toString n).length → (toString n).length ≤ 12 →
      check_UOM n = (round2 ((n : ℚ) / 1024^3), "GB")) ∧
    (13 ≤ (toString n).length →
      check_UOM n = (round2 ((n : ℚ) / 1024^4), "TB")) :=
  ⟨fun h => check_UOM_mb h, fun h1 h2 => check_UOM_gb h1 h2, fun h => check_UOM_tb h⟩

/-- Witness for C4 at the 9-digit value 999999999 (MB) and the 14-digit
value 10000000000000 (TB). -/
theorem claim_C4_witness :
    (toString 999999999).length < 10 ∧
    check_UOM 999999999 = (round2 ((999999999 : ℚ) / 1024^2), "MB") ∧
    13 ≤ (toString 10000000000000).length ∧
    check_UOM 10000000000000 = (round2 ((10000000000000 : ℚ) / 1024^4), "TB") :=
  ⟨by decide, (claim_C4_check_UOM_digit_unit 999999999).1 (by decide),
    by decide, (claim_C4_check_UOM_digit_unit 10000000000000).2.2 (by decide)⟩

/-- C9: `get_common_unit` selects its unit solely from the digit length of
the total, divides both numbers by that same divisor with 2-decimal
rounding, and its total component and unit agree with `check_UOM` on the
total. -/
theorem claim_C9_get_common_unit (used total : ℕ) :
    ((toString total).length < 10 →
      get_common_unit used total =
        (round2 ((used : ℚ) / 1024^2), round2 ((total : ℚ) / 1024^2), "MB")) ∧
    (10 ≤ (toString total).length → (toString total).length ≤ 12 →
      get_common_unit used total =
        (round2 ((used : ℚ) / 1024^3), round2 ((total : ℚ) / 1024^3), "GB")) ∧
    (13 ≤ (toString total).length →
      get_common_unit used total =
        (round2 ((used : ℚ) / 1024^4), round2 ((total : ℚ) / 1024^4), "TB")) ∧
    ((get_common_unit used total).2.1, (get_common_unit used total).2.2) =
      check_UOM total := by
  refine ⟨fun h => get_common_unit_mb h, fun h1 h2 => get_common_unit_gb h1 h2,
    fun h => get_common_unit_tb h, ?_⟩
  by_cases h13 : 13 ≤ (toString total).length
  · rw [get_common_unit_tb h13, check_UOM_tb h13]
  · by_cases h10 : 10 ≤ (toString total).length
    · rw [get_common_unit_gb h10 (by omega), check_UOM_gb h10 (by omega)]
    · rw [get_common_unit_mb (by omega), check_UOM_mb (by omega)]

/-- Witness for C9 at an 11-digit total (GB for both components). -/
theorem claim_C9_witness :
    10 ≤ (toString 10000000000).length ∧ (toString 10000000000).length ≤ 12 ∧
    get_common_unit 5 10000000000 =
      (round2 ((5 : ℚ) / 1024^3), round2 ((10000000000 : ℚ) / 1024^3), "GB") :=
  ⟨by decide, by decide,
    (claim_C9_get_common_unit 5 10000000000).2.1 (by decide) (by decide)⟩

/-- C7: the startup threshold validation rejects exactly the configurations
with warning ≥ critical for the ascending subcommands (cpu, memory,
storage, swap) and critical ≥ warning for the descending subcommand
(disks_health). -/
theorem claim_C7_threshold_validation (sub : Subcommand) (tw tc : Int) :
    parse_args_rejects sub tw tc = true ↔
      (((sub = .cpu ∨ sub = .memory ∨ sub = .storage ∨ sub = .swap) ∧ tc ≤ tw) ∨
        (sub = .disks_health ∧ tw ≤ tc)) := by
  cases sub <;> simp [parse_args_rejects, check_thresholds_scale]

theorem storageFindings_disabled {tw tc : Int} {st : StorageRec}
    (h : st.enabled ≠ 1) : storageFindings tw tc st = [] := by
  simp only [storageFindings]
  rw [if_neg h]

theorem check_storage_ignore_irrelevant (tw tc : Int) (inc ign1 ign2 : List String)
    (payload : List StorageRec) (h : 0 < inc.length) :
    check_storage tw tc inc ign1 payload = check_storage tw tc inc ign2 payload := by
  unfold check_storage
  apply List.foldl_ext
  intro acc st _
  rw [if_pos h, if_pos h]

theorem check_storage_all_filtered (tw tc : Int) (inc ign : List String)
    (payload : List StorageRec)
    (h : ∀ st ∈ payload, st.enabled ≠ 1 ∨ (inc ≠ [] ∧ st.storage ∉ inc) ∨
      (inc = [] ∧ st.storage ∈ ign)) :
    check_storage tw tc inc ign payload = [] := by
  unfold check_storage
  suffices hgen : ∀ (l : List StorageRec) (acc : List String),
      (∀ st ∈ l, st.enabled ≠ 1 ∨ (inc ≠ [] ∧ st.storage ∉ inc) ∨
        (inc = [] ∧ st.storage ∈ ign)) →
      (l.foldl (fun acc st =>
        if 0 < inc.length then
          if inc.contains st.storage then acc ++ storageFindings tw tc st else acc
        else
          if !(ign.contains st.storage) then acc ++ storageFindings tw tc st
          else acc) acc) = acc by
    exact hgen payload [] h
  intro l
  induction l with
  | nil => intro acc _; rfl
  | cons st rest ih =>
    intro acc hall
    have hst := hall st (List.mem_cons_self st rest)
    have hrest : ∀ x ∈ rest, x.enabled ≠ 1 ∨ (inc ≠ [] ∧ x.storage ∉ inc) ∨
        (inc = [] ∧ x.storage ∈ ign) :=
      fun x hx => hall x (List.mem_cons_of_mem st hx)
    rw [List.foldl_cons]
    have hstep :
        (if 0 < inc.length then
          if inc.contains st.storage then acc ++ storageFindings tw tc st else acc
        else
          if !(ign.contains st.storage) then acc ++ storageFindings tw tc st
          else acc) = acc := by
      rcases hst with he | ⟨hne, hnm⟩ | ⟨hemp, hmem⟩
      · rw [storageFindings_disabled he]
        simp
      · rw [if_pos (List.length_pos.mpr hne)]
        have : inc.contains st.storage = false := by
          simp only [List.contains, List.elem_eq_mem, decide_eq_false_iff_not]
          exact hnm
        rw [this, if_neg (by simp)]
      · rw [if_neg (by simp [hemp])]
        have : ign.contains st.storage = true := by
          simp only [List.contains, List.elem_eq_mem, decide_eq_true_eq]
          exact hmem
        rw [this, if_neg (by simp)]
    rw [hstep]
    exact ih acc hrest

/-- C8: when the include-disk list is non-empty, the ignore-disk list has no
effect on the storage result list, on the printed lines, or on the exit
code. -/
theorem claim_C8_include_overrides_ignore (tw tc : Int) (inc ign1 ign2 : List String)
    (payload : List StorageRec) (h : inc ≠ []) :
    check_storage tw tc inc ign1 payload = check_storage tw tc inc ign2 payload ∧
    printedLines (check_storage tw tc inc ign1 payload) =
      printedLines (check_storage tw tc inc ign2 payload) ∧
    exitCode (check_storage tw tc inc ign1 payload) =
      exitCode (check_storage tw tc inc ign2 payload) := by
  have e := check_storage_ignore_irrelevant tw tc inc ign1 ign2 payload
    (List.length_pos.mpr h)
  exact ⟨e, by rw [e], by rw [e]⟩

/-- Witness for C8: an overlapping ignore list is inert once an include list
is given. -/
theorem claim_C8_witness :
    check_storage 70 80 ["local"] [] [⟨"local", 1, 1, "dir", 1, 10⟩] =
      check_storage 70 80 ["local"] ["local"] [⟨"local", 1, 1, "dir", 1, 10⟩] :=
  (claim_C8_include_overrides_ignore 70 80 ["local"] [] ["local"]
    [⟨"local", 1, 1, "dir", 1, 10⟩] (by decide)).1

/-- C10: a storage run in which every entry is disabled, absent from a
non-empty include list, or ignored produces an empty finding list, and the
aggregator prints nothing and exits 0 on an empty list. -/
theorem claim_C10_empty_list_silent_ok (tw tc : Int) (inc ign : List String)
    (payload : List StorageRec)
    (h : ∀ st ∈ payload, st.enabled ≠ 1 ∨ (inc ≠ [] ∧ st.storage ∉ inc) ∨
      (inc = [] ∧ st.storage ∈ ign)) :
    check_storage tw tc inc ign payload = [] ∧
    printedLines (check_storage tw tc inc ign payload) = [] ∧
    exitCode (check_storage tw tc inc ign payload) = 0 := by
  have e := check_storage_all_filtered tw tc inc ign payload h
  exact ⟨e, by rw [e]; rfl, by rw [e]; rfl⟩

/-- Witness for C10: one disabled entry plus one ignored entry yield no
output and exit code 0. -/
theorem claim_C10_witness :
    check_storage 70 80 [] ["vm-backup"]
      [⟨"data", 0, 1, "dir", 0, 0⟩, ⟨"vm-backup", 1, 1, "dir", 1, 10⟩] = [] ∧
    printedLines (check_storage 70 80 [] ["vm-backup"]
      [⟨"data", 0, 1, "dir", 0, 0⟩, ⟨"vm-backup", 1, 1, "dir", 1, 10⟩]) = [] ∧
    exitCode (check_storage 70 80 [] ["vm-backup"]
      [⟨"data", 0, 1, "dir", 0, 0⟩, ⟨"vm-backup", 1, 1, "dir", 1, 10⟩]) = 0 :=
  claim_C10_empty_list_silent_ok 70 80 [] ["vm-backup"]
    [⟨"data", 0, 1, "dir", 0, 0⟩, ⟨"vm-backup", 1, 1, "dir", 1, 10⟩] (by decide)

/-- C5 counterexample: the claim computes the usage percentage as `c × 100`
without rounding; for `cpu = 0.64999` that is `64.999 < 65`, so the claim
predicts OK / exit 0, but the code compares the 2-decimal rounded value
65.0 against the warning threshold 65 and exits 1 (WARNING). -/
theorem claim_C5_counterexample :
    (run_cpu 65 85 (64999/100000)).2 = 1 ∧
    (64999/100000 : ℚ) * 100 < 65 :=
  of_decide_eq_true (by with_unfolding_all rfl)

/-- C5 (amended): the usage percentage is `round(c × 100, 2)`; the verdict
is CRITICAL when critical ≤ usage, otherwise WARNING when warning ≤ usage,
otherwise OK; for payload `{"cpu": 0.90}` with warning 65 and critical 85
the run prints the single claimed CRITICAL line and exits 2. -/
theorem claim_C5_cpu_verdict (tw tc : Int) (cpu : ℚ) :
    ((tc : ℚ) ≤ round2 (cpu * 100) → (run_cpu tw tc cpu).2 = 2) ∧
    (round2 (cpu * 100) < (tc : ℚ) → (tw : ℚ) ≤ round2 (cpu * 100) →
      (run_cpu tw tc cpu).2 = 1) ∧
    (round2 (cpu * 100) < (tc : ℚ) → round2 (cpu * 100) < (tw : ℚ) →
      (run_cpu tw tc cpu).2 = 0) ∧
    run_cpu 65 85 (9/10) =
      (["CRITICAL - CPU usage is 90.0 %. |usage=90.0%;65;85;0;100"], 2) := by
  refine ⟨?_, ?_, ?_, of_decide_eq_true (by with_unfolding_all rfl)⟩
  · intro h
    simp only [run_cpu]
    rw [if_pos h]
    rfl
  · intro hc hw
    simp only [run_cpu]
    rw [if_neg (not_le.mpr hc), if_pos ⟨hw, le_of_lt hc⟩]
    rfl
  · intro hc hw
    simp only [run_cpu]
    rw [if_neg (not_le.mpr hc),
      if_neg (fun hand => absurd hand.1 (not_le.mpr hw)), if_pos hw]
    rfl

/-- Witness for C5 at thresholds 65/85 and payload 0.90 (CRITICAL branch). -/
theorem claim_C5_witness : (run_cpu 65 85 (9/10)).2 = 2 :=
  (claim_C5_cpu_verdict 65 85 (9/10)).1 (of_decide_eq_true (by with_unfolding_all rfl))

/-- C6 counterexample: with payload `used = 1`, `total = 3` (bytes) and
thresholds 30/50, the byte total is nonzero and `used/total × 100 = 33.3…`
lies between the thresholds, so the claim predicts WARNING / exit 1; the
code rounds both sides to GB first (both become 0.0), takes the zero-total
fallback and exits 0 (OK). -/
theorem claim_C6_counterexample :
    (run_memory 30 50 "memory" 1 3).2 = 0 ∧
    (3 : ℕ) ≠ 0 ∧
    (30 : ℚ) ≤ (1 : ℚ) / (3 : ℚ) * 100 ∧
    (1 : ℚ) / (3 : ℚ) * 100 ≤ (50 : ℚ) :=
  of_decide_eq_true (by with_unfolding_all rfl)

/-- C6 (amended): memory/swap report `used` and `total` in GB rounded to one
decimal; the percentage is the 2-decimal rounding of `usedGB/totalGB × 100`,
except that when the *rounded* total is 0 the fallback `usedGB × 100` is
used; the three-way threshold split is applied to that rounded percentage;
`check_swap` delegates to `check_memory`. -/
theorem claim_C6_memory_verdict (tw tc : Int) (sub : String) (used total : ℕ) :
    (memGB total = 0 → memPercent used total = round2 (memGB used / 1 * 100)) ∧
    (memGB total ≠ 0 →
      memPercent used total = round2 (memGB used / memGB total * 100)) ∧
    ((tc : ℚ) ≤ memPercent used total →
      (run_memory tw tc sub used total).2 = 2) ∧
    (memPercent used total < (tc : ℚ) → (tw : ℚ) ≤ memPercent used total →
      (run_memory tw tc sub used total).2 = 1) ∧
    (memPercent used total < (tc : ℚ) → memPercent used total < (tw : ℚ) →
      (run_memory tw tc sub used total).2 = 0) ∧
    run_swap tw tc used total = run_memory tw tc "swap" used total := by
  refine ⟨?_, ?_, ?_, ?_, ?_, rfl⟩
  · intro h
    simp only [memPercent]
    rw [if_pos h]
  · intro h
    simp only [memPercent]
    rw [if_neg h]
  · intro h
    simp only [run_memory]
    rw [if_pos h]
    rfl
  · intro hc hw
    simp only [run_memory]
    rw [if_neg (not_le.mpr hc), if_pos ⟨hw, le_of_lt hc⟩]
    rfl
  · intro hc hw
    simp only [run_memory]
    rw [if_neg (not_le.mpr hc),
      if_neg (fun hand => absurd hand.1 (not_le.mpr hw)), if_pos hw]
    rfl

/-- Witness for C6: 6 GB used of 8 GB total is 75 %, WARNING at
thresholds 70/80. -/
theorem claim_C6_witness : (run_memory 70 80 "memory" 6442450944 8589934592).2 = 1 :=
  (claim_C6_memory_verdict 70 80 "memory" 6442450944 8589934592).2.2.2.1
    (of_decide_eq_true (by with_unfolding_all rfl))
    (of_decide_eq_true (by with_unfolding_all rfl))

/-- C3 (documents the code defect): a `disks_health` payload containing one
FAILED disk produces an *empty* result list — the mid-loop filter keeps only
lines containing both `"WARNING -"` and `"CRITICAL -"`, which no finding
ever does — so nothing is printed and the exit code is 0, not the claimed
WARNING line and exit code 1.  The all-healthy half of the claim does hold:
a healthy payload yields the single OK line and exit code 0. -/
theorem claim_C3_disks_health_eval :
    check_disks_health 50 10 [⟨"ATA", "Samsung SSD 860", "ssd", "/dev/sda", "FAILED", none⟩] = [] ∧
    printedLines (check_disks_health 50 10
      [⟨"ATA", "Samsung SSD 860", "ssd", "/dev/sda", "FAILED", none⟩]) = [] ∧
    exitCode (check_disks_health 50 10
      [⟨"ATA", "Samsung SSD 860", "ssd", "/dev/sda", "FAILED", none⟩]) = 0 ∧
    check_disks_health 50 10
      [⟨"ATA", "Samsung SSD 860", "ssd", "/dev/sda", "PASSED", some 99⟩,
       ⟨"ATA", "WDC WD40", "hdd", "/dev/sdb", "OK", none⟩] = [disksOkLine] ∧
    printedLines (check_disks_health 50 10
      [⟨"ATA", "Samsung SSD 860", "ssd", "/dev/sda", "PASSED", some 99⟩,
       ⟨"ATA", "WDC WD40", "hdd", "/dev/sdb", "OK", none⟩]) = [disksOkLine] ∧
    exitCode (check_disks_health 50 10
      [⟨"ATA", "Samsung SSD 860", "ssd", "/dev/sda", "PASSED", some 99⟩,
       ⟨"ATA", "WDC WD40", "hdd", "/dev/sdb", "OK", none⟩]) = 0 := by
  decide

/-- C1 counterexample: a storage run can accumulate a CRITICAL and a WARNING
finding together; `check_exitcodes` then prints the WARNING line as well,
so the printed output is not "the CRITICAL findings only" (the exit code is
still 2). -/
theorem claim_C1_counterexample :
    (check_storage 70 80 [] []
      [⟨"backup", 1, 0, "dir", 0, 0⟩, ⟨"local", 1, 1, "dir", 9, 10⟩]).any
        (containsSub "CRITICAL") = true ∧
    "WARNING - backup disk is not active!" ∈
      printedLines (check_storage 70 80 [] []
        [⟨"backup", 1, 0, "dir", 0, 0⟩, ⟨"local", 1, 1, "dir", 9, 10⟩]) ∧
    exitCode (check_storage 70 80 [] []
      [⟨"backup", 1, 0, "dir", 0, 0⟩, ⟨"local", 1, 1, "dir", 9, 10⟩]) = 2 :=
  of_decide_eq_true (by with_unfolding_all rfl)

/-- C1 (amended): the exit code follows the severity precedence (2 if any
CRITICAL finding, else 1 if any WARNING, else 0), but the printed output is
not restricted to the winning severity: a line is printed exactly when it is
in the accumulated list and contains `"CRITICAL"`, `"WARNING"` or `"OK -"`
(each group present is printed, CRITICAL block first, then WARNING, then
OK). -/
theorem claim_C1_aggregator (l : List String) :
    (∀ x, x ∈ printedLines l ↔
      x ∈ l ∧ (containsSub "CRITICAL" x = true ∨ containsSub "WARNING" x = true ∨
        containsSub "OK -" x = true)) ∧
    (exitCode l = 2 ↔ l.any (containsSub "CRITICAL") = true) ∧
    (exitCode l = 1 ↔ l.any (containsSub "CRITICAL") = false ∧
      l.any (containsSub "WARNING") = true) ∧
    (exitCode l = 0 ↔ l.any (containsSub "CRITICAL") = false ∧
      l.any (containsSub "WARNING") = false) := by
  constructor
  · intro x
    simp only [printedLines, List.mem_append, mem_ifBlock]
    tauto
  · cases h1 : l.any (containsSub "CRITICAL") <;>
      cases h2 : l.any (containsSub "WARNING") <;>
      simp [exitCode, h1, h2]

theorem serviceWarnMsg_contains_warning (e : ServiceRec) :
    containsSub "WARNING" (serviceWarnMsg e) = true :=
  serviceWarnMsg_contains "WARNING" (by decide) e

theorem serviceWarnMsg_contains_warnDash (e : ServiceRec) :
    containsSub "WARNING -" (serviceWarnMsg e) = true :=
  serviceWarnMsg_contains "WARNING -" (by decide) e

theorem mem_servicesPhase2 {b : List String} {x : String} (hx : x ∈ b)
    (hw : containsSub "WARNING -" x = true) :
    x ∈ (if b.any (containsSub "WARNING") then b.filter (containsSub "WARNING -")
      else b) := by
  split
  · exact List.mem_filter.mpr ⟨hx, hw⟩
  · exact hx

theorem mem_servicesPhase1 {acc : List String} {x : String} (e : ServiceRec)
    (hx : x ∈ acc) :
    x ∈ (if serviceWarns e then acc ++ [serviceWarnMsg e]
      else if !(acc.any (containsSub "WARNING")) then acc ++ [servicesOkLine]
      else acc) := by
  split
  · exact List.mem_append_left _ hx
  · split
    · exact List.mem_append_left _ hx
    · exact hx

theorem mem_servicesStep_of_mem {acc : List String} {x : String} (e : ServiceRec)
    (hx : x ∈ acc) (hw : containsSub "WARNING -" x = true) :
    x ∈ servicesStep acc e := by
  simp only [servicesStep]
  exact mem_servicesPhase2 (mem_servicesPhase1 e hx) hw

theorem warnMsg_mem_servicesStep (acc : List String) {e : ServiceRec}
    (hw : serviceWarns e = true) : serviceWarnMsg e ∈ servicesStep acc e := by
  simp only [servicesStep]
  rw [if_pos hw]
  exact mem_servicesPhase2 (List.mem_append_right _ (List.mem_singleton.mpr rfl))
    (serviceWarnMsg_contains_warnDash e)

theorem mem_foldl_servicesStep {l : List ServiceRec} {x : String}
    (hw : containsSub "WARNING -" x = true) :
    ∀ {acc : List String}, x ∈ acc → x ∈ l.foldl servicesStep acc := by
  induction l with
  | nil => exact fun hx => hx
  | cons e rest ih =>
    intro acc hx
    rw [List.foldl_cons]
    exact ih (mem_servicesStep_of_mem e hx hw)

theorem warnMsg_mem_foldl {l : List ServiceRec} {e : ServiceRec} (he : e ∈ l)
    (hw : serviceWarns e = true) :
    ∀ acc : List String, serviceWarnMsg e ∈ l.foldl servicesStep acc := by
  induction l with
  | nil => cases he
  | cons a rest ih =>
    intro acc
    rw [List.foldl_cons]
    rcases List.mem_cons.mp he with heq | hmem
    · subst heq
      exact mem_foldl_servicesStep (serviceWarnMsg_contains_warnDash e)
        (warnMsg_mem_servicesStep acc hw)
    · exact ih hmem (servicesStep acc a)

theorem servicesOkLine_no_warning :
    containsSub "WARNING" servicesOkLine = false := by decide

theorem servicesStep_all_ok {e : ServiceRec} (he : serviceWarns e = false)
    {acc : List String} (hacc : ∀ x ∈ acc, x = servicesOkLine) :
    servicesStep acc e = acc ++ [servicesOkLine] := by
  have hany : acc.any (containsSub "WARNING") = false := by
    rw [List.any_eq_false]
    intro x hx
    rw [hacc x hx, servicesOkLine_no_warning]
    exact Bool.false_ne_true
  have hany2 : (acc ++ [servicesOkLine]).any (containsSub "WARNING") = false := by
    simp [List.any_append, hany, servicesOkLine_no_warning]
  simp [servicesStep, he, hany, hany2]

theorem foldl_servicesStep_all_ok {l : List ServiceRec}
    (hl : ∀ e ∈ l, serviceWarns e = false) :
    ∀ acc : List String, (∀ x ∈ acc, x = servicesOkLine) →
      (∀ x ∈ l.foldl servicesStep acc, x = servicesOkLine) ∧
      (acc ≠ [] ∨ l ≠ [] → l.foldl servicesStep acc ≠ []) := by
  induction l with
  | nil =>
    intro acc hacc
    refine ⟨hacc, fun h => ?_⟩
    rcases h with h | h
    · exact h
    · exact absurd rfl h
  | cons e rest ih =>
    intro acc hacc
    rw [List.foldl_cons, servicesStep_all_ok (hl e (List.mem_cons_self e rest)) hacc]
    have hacc' : ∀ x ∈ acc ++ [servicesOkLine], x = servicesOkLine := by
      intro x hx
      rcases List.mem_append.mp hx with h | h
      · exact hacc x h
      · exact List.mem_singleton.mp h
    have ihr := ih (fun x hx => hl x (List.mem_cons_of_mem e hx))
      (acc ++ [servicesOkLine]) hacc'
    exact ⟨ihr.1, fun _ => ihr.2 (Or.inl (by simp))⟩

theorem dedup_of_all_eq {a : String} :
    ∀ {l : List String}, l ≠ [] → (∀ x ∈ l, x = a) → l.dedup = [a] := by
  intro l
  induction l with
  | nil => intro h; exact absurd rfl h
  | cons b rest ih =>
    intro _ hall
    have hb : b = a := hall b (List.mem_cons_self b rest)
    subst hb
    by_cases hr : rest = []
    · subst hr
      simp
    · have hrest : ∀ x ∈ rest, x = b :=
        fun x hx => hall x (List.mem_cons_of_mem b hx)
      obtain ⟨c, rest2, rfl⟩ := List.exists_cons_of_ne_nil hr
      have hc : c = b := hrest c (List.mem_cons_self c rest2)
      have hmem : b ∈ c :: rest2 := hc ▸ List.mem_cons_self c rest2
      rw [List.dedup_cons_of_mem hmem]
      exact ih hr hrest

theorem mem_of_mem_servicesPhase2 {b : List String} {x : String}
    (hx : x ∈ (if b.any (containsSub "WARNING") then
      b.filter (containsSub "WARNING -") else b)) : x ∈ b := by
  split at hx
  · exact (List.mem_filter.mp hx).1
  · exact hx

theorem servicesStep_inv {acc : List String} {e : ServiceRec} {x : String}
    (hx : x ∈ servicesStep acc e) :
    x ∈ acc ∨ (serviceWarns e = true ∧ x = serviceWarnMsg e) ∨
      x = servicesOkLine := by
  simp only [servicesStep] at hx
  have hx1 := mem_of_mem_servicesPhase2 hx
  split at hx1
  · rcases List.mem_append.mp hx1 with h | h
    · exact Or.inl h
    · rename_i hcond
      exact Or.inr (Or.inl ⟨hcond, List.mem_singleton.mp h⟩)
  · split at hx1
    · rcases List.mem_append.mp hx1 with h | h
      · exact Or.inl h
      · exact Or.inr (Or.inr (List.mem_singleton.mp h))
    · exact Or.inl hx1

theorem foldl_servicesStep_inv {P : List ServiceRec} :
    ∀ (l : List ServiceRec), (∀ e ∈ l, e ∈ P) →
    ∀ acc : List String,
      (∀ x ∈ acc, (∃ e ∈ P, serviceWarns e = true ∧ x = serviceWarnMsg e) ∨
        x = servicesOkLine) →
    ∀ x ∈ l.foldl servicesStep acc,
      (∃ e ∈ P, serviceWarns e = true ∧ x = serviceWarnMsg e) ∨
        x = servicesOkLine := by
  intro l
  induction l with
  | nil => exact fun _ acc hacc => hacc
  | cons e rest ih =>
    intro hsub acc hacc
    rw [List.foldl_cons]
    apply ih (fun a ha => hsub a (List.mem_cons_of_mem e ha))
    intro x hx
    rcases servicesStep_inv hx with h | ⟨hw, hm⟩ | h
    · exact hacc x h
    · exact Or.inl ⟨e, hsub e (List.mem_cons_self e rest), hw, hm⟩
    · exact Or.inr h

/-- C2 counterexample: a service with `state = "running"` but
`active-state = "inactive"` *does* produce a WARNING finding — the source
joins the first two tests with `or`, not `and` — so "not running AND not
active" is not the condition the code implements. -/
theorem claim_C2_counterexample :
    check_services [⟨"postfix", "Postfix Mail Agent", "enabled", "running", "inactive"⟩] =
      ["WARNING - Postfix Mail Agent (postfix) is running."] ∧
    (ServiceRec.state
      ⟨"postfix", "Postfix Mail Agent", "enabled", "running", "inactive"⟩) = "running" := by
  decide

/-- C2 (amended): a WARNING finding is produced for a service exactly when
(the service is not running OR not active) AND its unit-state is not
"not-found"; every warning record's line reaches the deduplicated result,
an all-healthy nonempty payload yields exactly the OK baseline line, and
every produced line is either such a WARNING line or the OK baseline. -/
theorem claim_C2_services (l : List ServiceRec) :
    (∀ e ∈ l, serviceWarns e = true → serviceWarnMsg e ∈ check_services l) ∧
    ((∀ e ∈ l, serviceWarns e = false) → l ≠ [] →
      check_services l = [servicesOkLine]) ∧
    (∀ x ∈ check_services l,
      (∃ e ∈ l, serviceWarns e = true ∧ x = serviceWarnMsg e) ∨
        x = servicesOkLine) ∧
    (∀ e : ServiceRec, serviceWarns e = true ↔
      ((e.state ≠ "running" ∨ e.activeState ≠ "active") ∧
        e.unitState ≠ "not-found")) := by
  refine ⟨?_, ?_, ?_, ?_⟩
  · intro e he hw
    unfold check_services
    exact List.mem_dedup.mpr (warnMsg_mem_foldl he hw [])
  · intro hl hne
    unfold check_services
    have h := foldl_servicesStep_all_ok hl [] (by simp)
    exact dedup_of_all_eq (h.2 (Or.inr hne)) h.1
  · intro x hx
    unfold check_services at hx
    exact foldl_servicesStep_inv l (fun e he => he) [] (by simp) x
      (List.mem_dedup.mp hx)
  · intro e
    simp [serviceWarns, Bool.or_eq_true, Bool.and_eq_true, bne_iff_ne]

/-- Witness for C2: a stopped service's WARNING line is in the result. -/
theorem claim_C2_witness :
    serviceWarnMsg ⟨"pvedaemon", "PVE API Daemon", "enabled", "stopped", "inactive"⟩ ∈
      check_services
        [⟨"pvedaemon", "PVE API Daemon", "enabled", "stopped", "inactive"⟩] :=
  (claim_C2_services
    [⟨"pvedaemon", "PVE API Daemon", "enabled", "stopped", "inactive"⟩]).1
    ⟨"pvedaemon", "PVE API Daemon", "enabled", "stopped", "inactive"⟩
    (List.mem_singleton.mpr rfl) (by decide)
